import Mathlib

/-!
Shallow embedding of the `smart-dialogue-platform` core:

* `core/device-manager/manager.py` — `DeviceManager` (registration, capability
  parsing, status updates with listeners, command validation and dispatch);
* `core/intent-engine/engine.py` — `IntentEngine` (explicit pattern
  recognition, implicit complaint mining, entity extraction, device matching,
  decision policy) and `ContextManager` (bounded per-user history);
* `core/scene-analyzer/analyzer.py` — `SceneAnalyzer._determine_action`.

Modelling conventions:

* Python `dict`s with dynamic keys become insertion-ordered association
  lists (`List (String × _)`); `dict` writes replace in place or append a new
  key at the end, exactly as CPython preserves insertion order.
* Python `float` confidence literals (0.7, 0.8, 0.85, 0.9) become the exact
  rationals `mkRat 7 10` etc.; every comparison the source performs on them
  is exact at these values, so ℚ is a faithful carrier.
* Chinese text is carried as `List Char`; Python's `pattern in text` is the
  substring test `containsSub`.
* Property values written through commands/status reports are modelled as
  `Int` (the source only ever compares them with numeric range bounds or
  enum membership).
* A Python function that can raise is modelled with `Option`/`Except`;
  `None` returned by a stub is `none`.
-/

namespace SDP

/-! ### Generic helpers: Python str / dict primitives -/

/-- Python `needle in hay` prefix worker: does `hay` start with `needle`? -/
def startsWithB : List Char → List Char → Bool
  | [], _ => true
  | _ :: _, [] => false
  | a :: as, b :: bs => a == b && startsWithB as bs

/-- Python substring containment `needle in hay` for `str`. -/
def containsSub (needle hay : List Char) : Bool :=
  match hay with
  | [] => needle.isEmpty
  | _ :: t => startsWithB needle hay || containsSub needle t

/-- Python `d.get(k)` on an insertion-ordered dict. -/
def lookupA {α : Type} (d : List (String × α)) (k : String) : Option α :=
  (d.find? (fun p => p.1 == k)).map (fun p => p.2)

/-- Python `k in d` on a dict. -/
def hasKeyA {α : Type} (d : List (String × α)) (k : String) : Bool :=
  d.any (fun p => p.1 == k)

/-- Python `d[k] = v`: replace in place if the key exists, else append
(CPython dicts preserve insertion order and append new keys). -/
def setA {α : Type} (d : List (String × α)) (k : String) (v : α) : List (String × α) :=
  if hasKeyA d k then d.map (fun p => if p.1 == k then (k, v) else p) else d ++ [(k, v)]

/-- Python `d.update(patch)`: set every key of `patch` in order. -/
def dictUpdate (d patch : List (String × Int)) : List (String × Int) :=
  patch.foldl (fun acc p => setA acc p.1 p.2) d

/-! ### Device manager data model (`manager.py`) -/

/-- Source `DeviceStatus` enum. -/
inductive DeviceStatus
  | online
  | offline
  | unknown
deriving DecidableEq

/-- The `.value` string of a `DeviceStatus` member. -/
def DeviceStatus.toStr : DeviceStatus → String
  | .online => "online"
  | .offline => "offline"
  | .unknown => "unknown"

/-- Source `CapabilityType` enum. -/
inductive CapabilityType
  | switch
  | range
  | enum
  | color
  | position
  | timer
deriving DecidableEq

/-- Source `CapabilityType(value)` constructor lookup; `none` models the `ValueError`
raised on an unknown value string. -/
def CapabilityType.ofString (s : String) : Option CapabilityType :=
  if s == "switch" then some .switch
  else if s == "range" then some .range
  else if s == "enum" then some .enum
  else if s == "color" then some .color
  else if s == "position" then some .position
  else if s == "timer" then some .timer
  else none

/-- The raw `cap_info` dict of one capability declaration; the fields the
source ever reads out of it (`type`, `readable`, `writable`, `min`, `max`,
`values`), each absent unless declared. -/
structure CapInfo where
  type : Option String := none
  readable : Option Bool := none
  writable : Option Bool := none
  min : Option Int := none
  max : Option Int := none
  values : Option (List Int) := none
deriving DecidableEq

/-- Source `Capability` dataclass; `params` keeps the whole raw `cap_info` dict,
as in `_parse_capabilities`. -/
structure Capability where
  name : String
  type : CapabilityType
  readable : Bool := true
  writable : Bool := true
  params : CapInfo := {}
deriving DecidableEq

/-- Source `Device` dataclass. -/
structure Device where
  device_id : String
  device_type : String
  device_name : String
  user_id : String
  manufacturer : Option String := none
  model : Option String := none
  location : List (String × String) := []
  capabilities : List Capability := []
  sensors : List (String × String) := []
  status : DeviceStatus := .unknown
  current_state : List (String × Int) := []
  last_seen : Option String := none
  created_at : Option String := none
deriving DecidableEq

/-- A status listener: invoked with `(device_id, current_state)`; `.error`
models the listener raising an exception. -/
abbrev ListenerFn := String → List (String × Int) → Except String Unit

/-- A command dict: the keys `send_command` / `_validate_command` read. -/
structure Command where
  command_id : Option String := none
  action : Option String := none
  properties : List (String × Int) := []
deriving DecidableEq

/-- The result dict of `send_command` (and of a registered handler): either
`{"status": "error", "message": …}` or
`{"status": "success", "command_id": …, "result": …}`. -/
inductive CmdResult
  | error (message : String)
  | success (command_id : Option String) (result : List (String × Int))
deriving DecidableEq

/-- A registered command handler for a device type. -/
abbrev HandlerFn := String → Command → CmdResult

/-- Source `DeviceManager` mutable state. -/
structure DeviceManager where
  devices : List (String × Device) := []
  user_devices : List (String × List String) := []
  command_handlers : List (String × HandlerFn) := []
  status_listeners : List ListenerFn := []

/-- The `device_info` dict passed to `register_device`: the keys the source
reads from it. -/
structure DeviceInfo where
  device_id : Option String := none
  device_type : String
  device_name : String
  manufacturer : Option String := none
  model : Option String := none
  location : List (String × String) := []
  capabilities : List (String × CapInfo) := []
  sensors : List (String × String) := []

/-! ### Device manager operations -/

/-- One iteration of the `_parse_capabilities` loop:
`CapabilityType(cap_info.get("type", "switch"))` then the dataclass fields,
with `params` the raw dict. `none` models the `ValueError` on a bad type
string — note the source performs no other validation of `cap_info`. -/
def parse_capability (p : String × CapInfo) : Option Capability :=
  (CapabilityType.ofString (p.2.type.getD "switch")).map (fun t =>
    { name := p.1, type := t, readable := p.2.readable.getD true,
      writable := p.2.writable.getD true, params := p.2 })

/-- Source `DeviceManager._parse_capabilities`. -/
def parse_capabilities (caps : List (String × CapInfo)) : Option (List Capability) :=
  caps.mapM parse_capability

/-- Source `device_info.get("device_id") or str(uuid.uuid4())`: the caller-supplied
id unless it is absent or falsy (empty); `freshId` stands for the generated
uuid. -/
def chosen_device_id (info : DeviceInfo) (freshId : String) : String :=
  match info.device_id with
  | some s => if s == "" then freshId else s
  | none => freshId

/-- Source `DeviceManager.register_device`; `now` stands for
`datetime.utcnow().isoformat() + "Z"`. `none` models the `ValueError`
propagating out of `_parse_capabilities`. -/
def register_device (m : DeviceManager) (info : DeviceInfo) (user_id freshId now : String) :
    Option (Device × DeviceManager) :=
  (parse_capabilities info.capabilities).map (fun caps =>
    let device_id := chosen_device_id info freshId
    let device : Device :=
      { device_id := device_id, device_type := info.device_type,
        device_name := info.device_name, user_id := user_id,
        manufacturer := info.manufacturer, model := info.model,
        location := info.location, capabilities := caps, sensors := info.sensors,
        status := .online, current_state := [],
        last_seen := some now, created_at := some now }
    let uds :=
      if hasKeyA m.user_devices user_id then
        m.user_devices.map (fun p => if p.1 == user_id then (p.1, p.2 ++ [device_id]) else p)
      else
        m.user_devices ++ [(user_id, [device_id])]
    (device, { m with devices := setA m.devices device_id device, user_devices := uds }))

/-- The dict built by `DeviceManager._device_to_dict` (its keys are fixed, so
a structure is a faithful model); note `status` holds the enum's `.value`
string. -/
structure DeviceDict where
  device_id : String
  device_type : String
  device_name : String
  manufacturer : Option String
  model : Option String
  location : List (String × String)
  capabilities : List Capability
  sensors : List (String × String)
  status : String
  current_state : List (String × Int)
  last_seen : Option String
deriving DecidableEq

/-- Source `DeviceManager._device_to_dict`. -/
def device_to_dict (d : Device) : DeviceDict :=
  { device_id := d.device_id, device_type := d.device_type,
    device_name := d.device_name, manufacturer := d.manufacturer,
    model := d.model, location := d.location, capabilities := d.capabilities,
    sensors := d.sensors, status := d.status.toStr,
    current_state := d.current_state, last_seen := d.last_seen }

/-- Source `DeviceManager.get_user_devices`: walk the owner index, keep the ids that
still resolve, render each as a dict. -/
def get_user_devices (m : DeviceManager) (user_id : String) : List DeviceDict :=
  ((lookupA m.user_devices user_id).getD []).filterMap
    (fun did => (lookupA m.devices did).map device_to_dict)

/-- The `status_data` dict read by `update_device_status`. -/
structure StatusData where
  status : List (String × Int) := []
  online : Option Bool := none

/-- The listener loop at the end of `update_device_status`, instrumented with
the number of listeners actually entered. The source has no `try`/`except`:
a raising listener aborts the loop and the exception propagates, which the
second component records. -/
def run_listeners (ls : List ListenerFn) (did : String) (st : List (String × Int)) :
    Nat × Option String :=
  match ls with
  | [] => (0, none)
  | l :: rest =>
    match l did st with
    | .error e => (1, some e)
    | .ok _ =>
      let r := run_listeners rest did st
      (r.1 + 1, r.2)

/-- The in-place mutations `update_device_status` performs on the device
before notifying listeners: merge `status_data["status"]`, refresh
`last_seen`, apply `status_data["online"]` when present. -/
def apply_status (d : Device) (sd : StatusData) (now : String) : Device :=
  let d := { d with current_state := dictUpdate d.current_state sd.status,
                    last_seen := some now }
  match sd.online with
  | some b => { d with status := if b then .online else .offline }
  | none => d

/-- Source `DeviceManager.update_device_status`: a no-op for an unknown device;
otherwise mutate the device, then run the listeners on the merged state.
Returns the new manager state plus the listener-loop observation. -/
def update_device_status (m : DeviceManager) (device_id : String) (sd : StatusData)
    (now : String) : DeviceManager × Nat × Option String :=
  match lookupA m.devices device_id with
  | none => (m, 0, none)
  | some device =>
    let device := apply_status device sd now
    let m' := { m with devices := setA m.devices device_id device }
    (m', run_listeners m'.status_listeners device_id device.current_state)

/-- Source `cap for cap in device.capabilities if cap.name == prop_name` first hit. -/
def find_capability (caps : List Capability) (prop_name : String) : Option Capability :=
  caps.find? (fun c => c.name == prop_name)

/-- One iteration of the `_validate_command` loop for property `(name, value)`:
capability must exist, be writable, and the value must pass the range / enum
check (`min`/`max` default to 0/100, `values` to `[]`). -/
def validate_prop (device : Device) (p : String × Int) : Bool :=
  match find_capability device.capabilities p.1 with
  | none => false
  | some capability =>
    if !capability.writable then false
    else
      let rangeOk : Bool :=
        if capability.type == .range then
          decide (capability.params.min.getD 0 ≤ p.2 ∧ p.2 ≤ capability.params.max.getD 100)
        else true
      let enumOk : Bool :=
        if capability.type == .enum then
          (capability.params.values.getD []).contains p.2
        else true
      rangeOk && enumOk

/-- Source `DeviceManager._validate_command`: every property of the command must
validate (the loop returns `False` on the first offender, `True` at the end). -/
def validate_command (device : Device) (command : Command) : Bool :=
  command.properties.all (validate_prop device)

/-- Source `DeviceManager.send_command`: not-found / offline / validation guards in
source order, then handler dispatch or the default state merge. All guards
fire before any state mutation. -/
def send_command (m : DeviceManager) (device_id : String) (command : Command) :
    CmdResult × DeviceManager :=
  match lookupA m.devices device_id with
  | none => (.error "Device not found", m)
  | some device =>
    if device.status ≠ DeviceStatus.online then (.error "Device offline", m)
    else if !validate_command device command then (.error "Invalid command", m)
    else
      match lookupA m.command_handlers device.device_type with
      | some handler => (handler device_id command, m)
      | none =>
        let device' :=
          if command.properties.isEmpty then device
          else { device with current_state := dictUpdate device.current_state command.properties }
        (.success command.command_id device'.current_state,
         { m with devices := setA m.devices device_id device' })

/-! ### Intent engine data model (`engine.py`) -/

/-- Source `IntentType` enum. -/
inductive IntentType
  | device_control
  | info_query
  | content_play
  | timer_set
  | scene_trigger
  | environment_adjust
  | mood_setting
  | safety_check
  | health_care
deriving DecidableEq

/-- Source `DecisionStrategy` enum. -/
inductive DecisionStrategy
  | direct_execute
  | execute_and_inform
  | ask_confirmation
  | proactive_suggestion
  | silent_observe
deriving DecidableEq

/-- The entity dict built by `_extract_entities` (keys `device`, `value`,
`room`) and by `_mine_implicit_intent` (keys `condition`,
`suggested_action`); each key absent unless set. -/
structure Entities where
  device : Option String := none
  value : Option Nat := none
  room : Option String := none
  condition : Option (List Char) := none
  suggested_action : Option String := none
deriving DecidableEq

/-- Source `Intent` dataclass. -/
structure Intent where
  type : IntentType
  category : String
  target : Option String
  confidence : ℚ
  entities : Entities
  is_implicit : Bool
deriving DecidableEq

/-- Source `DeviceMatch` dataclass. In `_match_devices` the snapshot field is
populated with `device.get("status", {})`, and in the dicts produced by
`_device_to_dict` the `"status"` key holds the status string
("online"/"offline"/"unknown") — so the snapshot this code actually stores
is that string. -/
structure DeviceMatch where
  device_id : String
  device_type : String
  capability : String
  current_state : String
  match_score : ℚ
deriving DecidableEq

/-- The `params` dicts that `Action` records are built with: `{}`, the
intent's entity dict, or `{"text": response}`. -/
inductive ActionParams
  | empty
  | fromEntities (e : Entities)
  | text (t : String)
deriving DecidableEq

/-- Source `Action` dataclass. -/
structure Action where
  action_type : String
  device_id : Option String
  action : Option String
  params : ActionParams
  requires_confirmation : Bool
deriving DecidableEq

/-- Source `Decision` dataclass. -/
structure Decision where
  strategy : DecisionStrategy
  actions : List Action
  response_text : Option String
  pending_actions : List Action
deriving DecidableEq

/-! ### Intent understanding -/

/-- The ordered `control_patterns` dict of `_recognize_explicit_intent`
(CPython dicts iterate in insertion order, so first key wins). -/
def control_patterns : List (List Char × (String × IntentType)) :=
  [("打开".toList, ("turn_on", .device_control)),
   ("关闭".toList, ("turn_off", .device_control)),
   ("关".toList, ("turn_off", .device_control)),
   ("开".toList, ("turn_on", .device_control)),
   ("调到".toList, ("set_value", .device_control)),
   ("调高".toList, ("increase", .device_control)),
   ("调低".toList, ("decrease", .device_control))]

/-- The `device_keywords` dict of `_extract_entities`. -/
def device_keywords : List (List Char × String) :=
  [("灯".toList, "light"),
   ("空调".toList, "ac"),
   ("加湿器".toList, "humidifier"),
   ("电视".toList, "tv"),
   ("窗帘".toList, "curtain"),
   ("音箱".toList, "speaker")]

/-- The `room_keywords` list of `_extract_entities`. -/
def room_keywords : List (List Char) :=
  ["客厅".toList, "卧室".toList, "厨房".toList, "卫生间".toList, "书房".toList]

/-- The `env_complaints` dict of `_mine_implicit_intent`:
keyword ↦ (category, target device type, suggested action). -/
def env_complaints : List (List Char × (String × String × String)) :=
  [("干燥".toList, ("humidity", "humidifier", "increase")),
   ("潮湿".toList, ("humidity", "dehumidifier", "decrease")),
   ("热".toList, ("temperature", "ac", "cool")),
   ("冷".toList, ("temperature", "ac", "heat")),
   ("暗".toList, ("light", "light", "increase")),
   ("亮".toList, ("light", "light", "decrease"))]

/-- First maximal digit run in the text: `re.findall(r'\d+', text)[0]`
restricted to ASCII digits (the only digits these inputs carry). -/
def firstDigitRun : List Char → Option (List Char)
  | [] => none
  | c :: t => if c.isDigit then some (c :: t.takeWhile Char.isDigit) else firstDigitRun t

/-- Decimal value of a digit run (`int(...)`). -/
def digitsToNat (l : List Char) : Nat :=
  l.foldl (fun n c => n * 10 + (c.toNat - 48)) 0

/-- Source `IntentEngine._extract_entities`. -/
def extract_entities (text : List Char) : Entities :=
  { device := (device_keywords.find? (fun p => containsSub p.1 text)).map (fun p => p.2),
    value := (firstDigitRun text).map digitsToNat,
    room := (room_keywords.find? (fun r => containsSub r text)).map (fun r => String.mk r) }

/-- Source `IntentEngine._recognize_explicit_intent`: first matching control pattern
wins; confidence fixed at 0.85. -/
def recognize_explicit_intent (text : List Char) : Option Intent :=
  (control_patterns.find? (fun p => containsSub p.1 text)).map (fun p =>
    let entities := extract_entities text
    { type := p.2.2, category := p.2.1, target := entities.device,
      confidence := mkRat 85 100, entities := entities, is_implicit := false })

/-- Source `IntentEngine._mine_implicit_intent`: first matching complaint keyword
wins; confidence fixed at 0.7. The `audio_result`/`scene_result` arguments of
the source are unused by its body and are dropped here. -/
def mine_implicit_intent (text : List Char) : Option Intent :=
  (env_complaints.find? (fun p => containsSub p.1 text)).map (fun p =>
    { type := .environment_adjust, category := p.2.1, target := some p.2.2.1,
      confidence := mkRat 7 10,
      entities := { condition := some p.1, suggested_action := some p.2.2.2 },
      is_implicit := true })

/-- Source `IntentEngine._create_unknown_intent`. -/
def unknown_intent : Intent :=
  { type := .info_query, category := "unknown", target := none,
    confidence := 0, entities := {}, is_implicit := false }

/-- Source `IntentEngine._understand_intent`: explicit if its confidence exceeds
0.7, else mined implicit, else explicit-if-present, else unknown. -/
def understand_intent (text : List Char) : Intent :=
  match recognize_explicit_intent text with
  | some e =>
    if e.confidence > mkRat 7 10 then e
    else
      match mine_implicit_intent text with
      | some i => i
      | none => e
  | none =>
    match mine_implicit_intent text with
    | some i => i
    | none => unknown_intent

/-! ### Device matching -/

/-- Source `IntentEngine._device_matches_intent`:
`device.get("device_type") == intent.target` (comparison with a `None`
target is `False`, but `_match_devices` already returned early then). -/
def device_matches_intent (d : DeviceDict) (intent : Intent) : Bool :=
  match intent.target with
  | some t => d.device_type == t
  | none => false

/-- Source `IntentEngine._get_matching_capability`: the source is a stub returning
the constant `"power"`. -/
def get_matching_capability (_d : DeviceDict) (_intent : Intent) : String :=
  "power"

/-- Source `IntentEngine._calculate_match_score`: the source is a stub returning
the constant 0.9. -/
def calculate_match_score (_d : DeviceDict) (_intent : Intent) : ℚ :=
  mkRat 9 10

/-- The `DeviceMatch` record built inside the `_match_devices` loop. -/
def mk_device_match (d : DeviceDict) (intent : Intent) : DeviceMatch :=
  { device_id := d.device_id, device_type := d.device_type,
    capability := get_matching_capability d intent,
    current_state := d.status, match_score := calculate_match_score d intent }

/-- Stable descending insertion: an element passes over entries with a
strictly greater score and lands before the first strictly smaller one, so
equal scores keep their original relative order. -/
def insert_desc (x : DeviceMatch) : List DeviceMatch → List DeviceMatch
  | [] => [x]
  | y :: t => if x.match_score ≥ y.match_score then x :: y :: t else y :: insert_desc x t

/-- Source `sorted(matches, key=lambda x: x.match_score, reverse=True)`: CPython's
sort is stable also under `reverse=True` (equal keys keep list order), and a
stable descending sort is unique as a function, so this insertion sort is
extensionally the same operation. -/
def sort_desc : List DeviceMatch → List DeviceMatch
  | [] => []
  | x :: t => insert_desc x (sort_desc t)

/-- Source `IntentEngine._match_devices`: empty on a falsy target, else the owner's
devices filtered to the intent's target type, wrapped and sorted. -/
def match_devices (m : DeviceManager) (intent : Intent) (user_id : String) :
    List DeviceMatch :=
  match intent.target with
  | none => []
  | some t =>
    if t == "" then []
    else
      let user_devs := get_user_devices m user_id
      sort_desc ((user_devs.filter (fun d => device_matches_intent d intent)).map
        (fun d => mk_device_match d intent))

/-! ### Environment data and decisions -/

/-- The `env_data` dict of `_get_environment_data`. -/
structure EnvData where
  humidity : Option Int := none
  temperature : Option Int := none
deriving DecidableEq

/-- Source `IntentEngine._get_environment_data` over matches produced by
`_match_devices`: each `match.current_state` is the status string (see
`DeviceMatch`), so `"humidity" in match.current_state` is a substring test
on it; were it ever true the source would then index a `str` with a `str`
key (a `TypeError`), modelled as `none`. For the status strings the tests
are always false and the result is the empty dict. -/
def get_environment_data (device_matches : List DeviceMatch) : Option EnvData :=
  if device_matches.any (fun mt =>
      containsSub "humidity".toList mt.current_state.toList
      || containsSub "temperature".toList mt.current_state.toList)
  then none
  else some {}

/-- Source `IntentEngine._is_safe_action`. -/
def is_safe_action (intent : Intent) : Bool :=
  ["turn_on", "turn_off", "set_value"].contains intent.category

/-- Source `IntentEngine._create_execute_decision`: one `device_control` action for
the top match, acknowledgement text, no pending actions. -/
def create_execute_decision (intent : Intent) (device_matches : List DeviceMatch) :
    Decision :=
  let actions := (device_matches.take 1).map (fun mt =>
    ({ action_type := "device_control", device_id := some mt.device_id,
       action := some intent.category, params := .fromEntities intent.entities,
       requires_confirmation := false } : Action))
  { strategy := .execute_and_inform, actions := actions,
    response_text := some ("好的，已为您" ++ intent.category), pending_actions := [] }

/-- Source `IntentEngine._create_suggestion_decision` applied to the top match
(`device_matches[0]`, whose existence the caller guards): a voice question
plus exactly one pending `turn_on` action on that device. -/
def create_suggestion_decision (intent : Intent) (top : DeviceMatch) (env_data : EnvData) :
    Decision :=
  let response :=
    if intent.category == "humidity" && env_data.humidity.isSome then
      "检测到室内湿度为" ++ toString (env_data.humidity.getD 0) ++ "%，需要我帮您打开加湿器吗？"
    else
      "需要我帮您调节" ++ (match intent.target with | some t => t | none => "None") ++ "吗？"
  { strategy := .proactive_suggestion,
    actions := [{ action_type := "voice_response", device_id := none, action := none,
                  params := .text response, requires_confirmation := false }],
    response_text := some response,
    pending_actions := [{ action_type := "device_control", device_id := some top.device_id,
                          action := some "turn_on", params := .empty,
                          requires_confirmation := true }] }

/-- Source `IntentEngine._create_confirmation_decision`: the source is an
unimplemented stub (`pass` under a TODO) that falls off the end and returns
`None`, despite its `-> Decision` annotation and its docstring. -/
def create_confirmation_decision (_intent : Intent) (_matches : List DeviceMatch) :
    Option Decision :=
  none

/-- Source `IntentEngine._create_observe_decision`. -/
def create_observe_decision : Decision :=
  { strategy := .silent_observe, actions := [], response_text := none,
    pending_actions := [] }

/-- Source `IntentEngine._make_decision`: the decision matrix. The `user_id` lookup
into `user_preferences` of the source is dead (the fetched value is unused)
and is dropped. A branch ending in the confirmation stub yields `none`. -/
def make_decision (intent : Intent) (device_matches : List DeviceMatch)
    (env_data : EnvData) : Option Decision :=
  if intent.is_implicit then
    match device_matches with
    | top :: _ => some (create_suggestion_decision intent top env_data)
    | [] => some create_observe_decision
  else if intent.confidence > mkRat 8 10 && !device_matches.isEmpty then
    if is_safe_action intent then some (create_execute_decision intent device_matches)
    else create_confirmation_decision intent device_matches
  else create_confirmation_decision intent device_matches

/-! ### Context manager -/

/-- One `{intent, decision}` history entry (`decision` may be the `None`
produced by the confirmation stub). -/
structure CtxEntry where
  intent : Intent
  decision : Option Decision
deriving DecidableEq

/-- Append then `history[-10:]`: keep the most recent 10 entries. -/
def ctx_append (history : List CtxEntry) (e : CtxEntry) : List CtxEntry :=
  let h2 := history ++ [e]
  h2.drop (h2.length - 10)

/-- Source `ContextManager.contexts`: user_id ↦ history list. -/
abbrev ContextMap := List (String × List CtxEntry)

/-- The history `ContextManager.get` would expose for a user. -/
def ctx_get (cm : ContextMap) (uid : String) : List CtxEntry :=
  (lookupA cm uid).getD []

/-- Source `ContextManager.update`: create the user's context when absent, append
the entry, trim to the last 10. -/
def context_update (cm : ContextMap) (uid : String) (intent : Intent)
    (decision : Option Decision) : ContextMap :=
  let cm' := if hasKeyA cm uid then cm else cm ++ [(uid, [])]
  cm'.map (fun p => if p.1 == uid then (p.1, ctx_append p.2 ⟨intent, decision⟩) else p)

/-! ### Scene analyzer (`analyzer.py`) -/

/-- Source `SceneType` enum. -/
inductive SceneType
  | human_device
  | human_human
  | human_pet
  | self_talk
  | background
deriving DecidableEq

/-- Source `RecommendedAction` enum. -/
inductive RecommendedAction
  | respond
  | proactive_suggestion
  | silent_observe
  | ignore
  | emergency_alert
deriving DecidableEq

/-- The keys `_determine_action` reads from its `scene_result` dict:
`type` (may be absent), `confidence` (defaulting to 0), `is_urgent`
(absent ≡ falsy). -/
structure SceneRuleResult where
  type : Option SceneType := none
  confidence : ℚ := 0
  is_urgent : Bool := false

/-- The key `_determine_action` reads from its `features` dict: the
environment-complaint category from `_detect_complaint` (a nonempty category
name or `None`, so truthiness is `isSome`). -/
structure SceneFeatures where
  environment_complaint : Option String := none

/-- Source `SceneAnalyzer._determine_action`, with the source's branch order: the
human-device block returns before the urgency check is ever reached. -/
def determine_action (scene_result : SceneRuleResult) (features : SceneFeatures) :
    RecommendedAction :=
  if scene_result.type = some .human_device then
    if scene_result.confidence > mkRat 8 10 then .respond
    else if features.environment_complaint.isSome then .proactive_suggestion
    else .silent_observe
  else if scene_result.is_urgent then .emergency_alert
  else if scene_result.type = some .human_human ∨ scene_result.type = some .self_talk then
    if features.environment_complaint.isSome then .proactive_suggestion
    else .silent_observe
  else .ignore

/-! ### Concrete fixtures used by witnesses and counterexamples -/

/-- A declared range capability 16–30 (an AC temperature dial). -/
def capTempInfo : CapInfo :=
  { type := some "range", min := some 16, max := some 30 }

/-- The parsed form of `capTempInfo` under the name `temperature`. -/
def capTemp : Capability :=
  { name := "temperature", type := .range, params := capTempInfo }

/-- An online AC owned by `u1` with the range capability declared. -/
def devAC : Device :=
  { device_id := "ac-1", device_type := "ac", device_name := "Living room AC",
    user_id := "u1", capabilities := [capTemp], status := .online,
    current_state := [("temperature", 22)] }

/-- Manager state holding just `devAC`. -/
def mgrC1 : DeviceManager :=
  { devices := [("ac-1", devAC)], user_devices := [("u1", ["ac-1"])] }

/-- A command whose `temperature` value 99 lies outside the declared 16–30. -/
def cmdC1 : Command :=
  { command_id := some "cmd-1", properties := [("power", 1), ("temperature", 99)] }

/-- An online humidifier owned by `u1`. -/
def devHum : Device :=
  { device_id := "hum-1", device_type := "humidifier", device_name := "Humidifier",
    user_id := "u1", status := .online }

/-- Manager state holding just `devHum`. -/
def mgrC4 : DeviceManager :=
  { devices := [("hum-1", devHum)], user_devices := [("u1", ["hum-1"])] }

/-- A capability declaration of kind `enum` with an empty value set. -/
def infoEnumEmpty : DeviceInfo :=
  { device_id := some "fan-1", device_type := "fan", device_name := "Fan",
    capabilities := [("mode", { type := some "enum", values := some [] })] }

/-- A listener that always raises. -/
def failListener : ListenerFn := fun _ _ => .error "boom"

/-- A listener that always returns normally. -/
def okListener : ListenerFn := fun _ _ => .ok ()

/-- An online light owned by `u1`. -/
def devLight : Device :=
  { device_id := "lt-1", device_type := "light", device_name := "Light",
    user_id := "u1", status := .online }

/-- Manager with one device and two listeners, the first of which raises. -/
def mgrC8 : DeviceManager :=
  { devices := [("lt-1", devLight)], user_devices := [("u1", ["lt-1"])],
    status_listeners := [failListener, okListener] }

/-- A status report carrying one property. -/
def sdC8 : StatusData :=
  { status := [("power", 1)] }

/-- Two online ACs owned by `u1`, registered `ac-1` before `ac-2`. -/
def devAC2 : Device :=
  { device_id := "ac-2", device_type := "ac", device_name := "Bedroom AC",
    user_id := "u1", status := .online }

/-- Manager with the two ACs in registration order. -/
def mgrC9 : DeviceManager :=
  { devices := [("ac-1", devAC), ("ac-2", devAC2)],
    user_devices := [("u1", ["ac-1", "ac-2"])] }

/-- An explicit turn-on intent targeting device type `ac`. -/
def intentC9 : Intent :=
  { type := .device_control, category := "turn_on", target := some "ac",
    confidence := mkRat 85 100, entities := { device := some "ac" },
    is_implicit := false }

/-- Registration request with a client-supplied id `d1`. -/
def infoC10 : DeviceInfo :=
  { device_id := some "d1", device_type := "light", device_name := "Light" }

/-- The device `register_device` builds from `infoC10` at time `t0`. -/
def devD1 : Device :=
  { device_id := "d1", device_type := "light", device_name := "Light",
    user_id := "u1", status := .online, last_seen := some "t0",
    created_at := some "t0" }

/-- Manager state after one registration of `infoC10` by `u1`. -/
def mgrC10 : DeviceManager :=
  { devices := [("d1", devD1)], user_devices := [("u1", ["d1"])] }

/-- A history entry used to build concrete contexts. -/
def entry0 : CtxEntry :=
  ⟨unknown_intent, none⟩

/-- A full (length-10) history. -/
def h10 : List CtxEntry :=
  List.replicate 10 entry0

/-- The literal intent `_mine_implicit_intent` produces for the complaint
keyword 干燥. -/
def intentC4 : Intent :=
  { type := .environment_adjust, category := "humidity", target := some "humidifier",
    confidence := mkRat 7 10,
    entities := { condition := some "干燥".toList, suggested_action := some "increase" },
    is_implicit := true }

/-- The `Device` record `register_device` builds once capability parsing
succeeded, with the chosen id `did`. -/
def device_of_info (info : DeviceInfo) (caps : List Capability) (user_id did now : String) :
    Device :=
  { device_id := did, device_type := info.device_type, device_name := info.device_name,
    user_id := user_id, manufacturer := info.manufacturer, model := info.model,
    location := info.location, capabilities := caps, sensors := info.sensors,
    status := .online, current_state := [], last_seen := some now, created_at := some now }

/-- The manager state `register_device` leaves behind for a caller-supplied
id `did` of a user already indexed: entry replaced in `devices`, id appended
to the user's owner index. -/
def registered_manager (m : DeviceManager) (info : DeviceInfo) (caps : List Capability)
    (uid did now : String) : DeviceManager :=
  { m with
    devices := setA m.devices did (device_of_info info caps uid did now),
    user_devices := m.user_devices.map
      (fun p => if p.1 == uid then (p.1, p.2 ++ [did]) else p) }

/-! ## Helper lemmas about the dict primitives -/

theorem lookupA_map_set {α : Type} (d : List (String × α)) (k : String) (v : α)
    (h : hasKeyA d k = true) :
    lookupA (d.map (fun p => if p.1 == k then (k, v) else p)) k = some v := by
  induction d with
  | nil => simp [hasKeyA] at h
  | cons a t ih =>
    by_cases ha : (a.1 == k) = true
    · simp [lookupA, List.find?, ha]
    · have ht : hasKeyA t k = true := by
        simp [hasKeyA] at h ⊢
        rcases h with h | h
        · exact absurd (by simp [h]) ha
        · exact h
      have := ih ht
      simp only [lookupA, List.map_cons, List.find?] at this ⊢
      rw [if_neg (by simpa using ha)]
      simpa [ha] using this

theorem lookupA_append_new {α : Type} (d : List (String × α)) (k : String) (v : α)
    (h : hasKeyA d k = false) :
    lookupA (d ++ [(k, v)]) k = some v := by
  induction d with
  | nil => simp [lookupA, List.find?]
  | cons a t ih =>
    have ha : (a.1 == k) = false := by
      simp [hasKeyA] at h
      simpa using h.1
    have ht : hasKeyA t k = false := by
      simp [hasKeyA] at h ⊢
      intro p hp
      exact h.2 p hp
    simpa [lookupA, List.find?, ha] using ih ht

theorem lookupA_setA_self {α : Type} (d : List (String × α)) (k : String) (v : α) :
    lookupA (setA d k v) k = some v := by
  unfold setA
  by_cases h : hasKeyA d k = true
  · rw [if_pos h]
    exact lookupA_map_set d k v h
  · rw [if_neg h]
    exact lookupA_append_new d k v (by simpa using h)

theorem lookupA_map_set_ne {α : Type} (d : List (String × α)) (k k' : String) (v : α)
    (hkk : (k == k') = false) :
    lookupA (d.map (fun p => if p.1 == k then (k, v) else p)) k' = lookupA d k' := by
  induction d with
  | nil => rfl
  | cons a t ih =>
    by_cases ha : (a.1 == k) = true
    · have ha' : (a.1 == k') = false := by
        have : a.1 = k := by simpa using ha
        simpa [this] using hkk
      simp only [lookupA, List.map_cons, List.find?] at ih ⊢
      rw [if_pos ha, hkk, ha']
      exact ih
    · simp only [lookupA, List.map_cons, List.find?] at ih ⊢
      rw [if_neg (by simpa using ha)]
      cases hb : (a.1 == k') with
      | true => simp [hb]
      | false => simpa [hb] using ih

theorem lookupA_append_ne {α : Type} (d : List (String × α)) (k k' : String) (v : α)
    (hkk : (k == k') = false) :
    lookupA (d ++ [(k, v)]) k' = lookupA d k' := by
  induction d with
  | nil => simp [lookupA, List.find?, hkk]
  | cons a t ih =>
    simp only [lookupA, List.cons_append, List.find?] at ih ⊢
    cases hb : (a.1 == k') with
    | true => simp [hb]
    | false => simpa [hb] using ih

theorem lookupA_setA_ne {α : Type} (d : List (String × α)) (k k' : String) (v : α)
    (h : k' ≠ k) : lookupA (setA d k v) k' = lookupA d k' := by
  have hkk : (k == k') = false := by simpa using fun e => h e.symm
  unfold setA
  by_cases hk : hasKeyA d k = true
  · rw [if_pos hk]
    exact lookupA_map_set_ne d k k' v hkk
  · rw [if_neg hk]
    exact lookupA_append_ne d k k' v hkk

theorem lookupA_map_update {α : Type} (d : List (String × α)) (k : String) (f : α → α) :
    lookupA (d.map (fun p => if p.1 == k then (p.1, f p.2) else p)) k =
      (lookupA d k).map f := by
  induction d with
  | nil => rfl
  | cons a t ih =>
    by_cases ha : (a.1 == k) = true
    · simp [lookupA, List.find?, ha]
    · simp only [lookupA, List.map_cons, List.find?] at ih ⊢
      rw [if_neg (by simpa using ha)]
      simpa [ha] using ih

theorem lookupA_owner_append (d : List (String × List String)) (k x : String) :
    lookupA (d.map (fun p => if p.1 == k then (p.1, p.2 ++ [x]) else p)) k =
      (lookupA d k).map (fun l => l ++ [x]) := by
  induction d with
  | nil => rfl
  | cons a t ih =>
    by_cases ha : (a.1 == k) = true
    · simp [lookupA, List.find?, ha]
    · simp only [lookupA, List.map_cons, List.find?] at ih ⊢
      rw [if_neg (by simpa using ha)]
      simpa [ha] using ih

theorem filter_filterMap_length {α β : Type} (f : α → Option β) (p : β → Bool)
    (l : List α) :
    ((l.filterMap f).filter p).length =
      (l.filter (fun a => ((f a).map p).getD false)).length := by
  induction l with
  | nil => rfl
  | cons a t ih =>
    cases hf : f a with
    | none => simpa [List.filterMap_cons, hf] using ih
    | some b =>
      cases hp : p b with
      | true => simpa [List.filterMap_cons, hf, List.filter_cons, hp] using ih
      | false => simpa [List.filterMap_cons, hf, List.filter_cons, hp] using ih

/-! ## Claim C1 -/

/-- C1: for every registered, online device with a declared writable range
capability whose bounds are `[mn, mx]`, `send_command` with a properties map
containing a value for that capability outside the bounds returns the
`Invalid command` error and leaves the whole manager state — in particular
the device's `current_state` — exactly as it was, even if other properties
in the same command are valid (validation runs before any mutation). -/
theorem send_command_range_violation_rejected
    (m : DeviceManager) (device_id : String) (device : Device) (cap : Capability)
    (command : Command) (pname : String) (v mn mx : Int)
    (hdev : lookupA m.devices device_id = some device)
    (honline : device.status = .online)
    (hfind : find_capability device.capabilities pname = some cap)
    (hw : cap.writable = true)
    (hrange : cap.type = .range)
    (hmin : cap.params.min = some mn)
    (hmax : cap.params.max = some mx)
    (hmem : (pname, v) ∈ command.properties)
    (hout : v < mn ∨ mx < v) :
    send_command m device_id command = (.error "Invalid command", m) := by
  have hvp : validate_prop device (pname, v) = false := by
    unfold validate_prop
    rw [hfind]
    simp only [hw, hrange, hmin, hmax]
    have hdec : decide ((some mn).getD 0 ≤ v ∧ v ≤ (some mx).getD 100) = false := by
      simp only [Option.getD_some, decide_eq_false_iff_not]
      omega
    simp [hdec]
    rcases hout with h | h <;> omega
  have hvc : validate_command device command = false := by
    unfold validate_command
    cases hall : command.properties.all (validate_prop device) with
    | false => rfl
    | true => exact absurd (List.all_eq_true.mp hall _ hmem) (by simp [hvp])
  unfold send_command
  rw [hdev]
  simp [honline, hvc]

/-- C1 witness: the claim's theorem applied to `mgrC1`, whose AC declares a
16–30 range for `temperature`, and a command asking for 99. -/
theorem send_command_range_violation_witness :
    send_command mgrC1 "ac-1" cmdC1 = (.error "Invalid command", mgrC1) :=
  send_command_range_violation_rejected mgrC1 "ac-1" devAC capTemp cmdC1
    "temperature" 99 16 30 rfl rfl rfl rfl rfl rfl rfl (by decide) (by omega)

/-! ## Claim C2 -/

/-- C2 (code bug): the input 调高空调 yields an explicit intent with
confidence 0.85 and the non-safe category `increase`, so the claim requires
an `ask_confirmation` decision with a prompt and a pending action; but
`_create_confirmation_decision` is an unimplemented stub returning `None`
(despite its `-> Decision` annotation), so `_make_decision` returns `None`
on this input — both with no device matches and with a match present. -/
theorem make_decision_confirmation_stub_returns_none :
    (understand_intent "调高空调".toList).is_implicit = false ∧
    (understand_intent "调高空调".toList).confidence = mkRat 85 100 ∧
    is_safe_action (understand_intent "调高空调".toList) = false ∧
    make_decision (understand_intent "调高空调".toList) [] {} = none ∧
    make_decision (understand_intent "调高空调".toList)
      [mk_device_match (device_to_dict devAC) (understand_intent "调高空调".toList)] {} =
      none := by decide

/-! ## Claim C3 -/

/-- Shape of any intent produced by `_recognize_explicit_intent`: confidence
is the fixed 0.85 and the intent is explicit. -/
theorem recognize_explicit_shape (text : List Char) (e : Intent)
    (h : recognize_explicit_intent text = some e) :
    e.confidence = mkRat 85 100 ∧ e.is_implicit = false := by
  unfold recognize_explicit_intent at h
  cases hf : control_patterns.find? (fun p => containsSub p.1 text) with
  | none => rw [hf] at h; simp at h
  | some p =>
    rw [hf] at h
    simp only [Option.map_some'] at h
    cases h
    exact ⟨rfl, rfl⟩

/-- C3: whenever some explicit control pattern occurs in the text,
`_understand_intent` returns exactly the explicit intent — confidence 0.85,
`is_implicit = false` — regardless of any implicit keyword also present
(0.85 > 0.7 short-circuits before implicit mining); in particular the text
打开加湿器 yields an explicit `turn_on` intent. -/
theorem explicit_pattern_dominates :
    (∀ text : List Char,
      (control_patterns.any (fun p => containsSub p.1 text)) = true →
      ∃ e, recognize_explicit_intent text = some e ∧ understand_intent text = e ∧
        e.confidence = mkRat 85 100 ∧ e.is_implicit = false) ∧
    (understand_intent "打开加湿器".toList).is_implicit = false ∧
    (understand_intent "打开加湿器".toList).category = "turn_on" := by
  refine ⟨?_, by decide, by decide⟩
  intro text h
  obtain ⟨p, hp, hcp⟩ := List.any_eq_true.mp h
  have hsome : (control_patterns.find? (fun q => containsSub q.1 text)).isSome := by
    rw [List.find?_isSome]
    exact ⟨p, hp, hcp⟩
  obtain ⟨q, hq⟩ := Option.isSome_iff_exists.mp hsome
  have hrec : ∃ e, recognize_explicit_intent text = some e := by
    unfold recognize_explicit_intent
    rw [hq]
    exact ⟨_, rfl⟩
  obtain ⟨e, he⟩ := hrec
  obtain ⟨hconf, himpl⟩ := recognize_explicit_shape text e he
  refine ⟨e, he, ?_, hconf, himpl⟩
  have hu : understand_intent text =
      if e.confidence > mkRat 7 10 then e
      else match mine_implicit_intent text with | some i => i | none => e := by
    simp only [understand_intent, he]
  rw [hu, hconf, if_pos (by decide : mkRat 85 100 > mkRat 7 10)]

/-- C3 witness: the general part of the claim's theorem applied to the
scenario text 打开加湿器, whose pattern hit is discharged by computation. -/
theorem explicit_pattern_dominates_witness :
    ∃ e, recognize_explicit_intent "打开加湿器".toList = some e ∧
      understand_intent "打开加湿器".toList = e ∧
      e.confidence = mkRat 85 100 ∧ e.is_implicit = false :=
  explicit_pattern_dominates.1 "打开加湿器".toList (by decide)

/-! ## Claim C4 -/

/-- C4: the text 好干燥啊 hits no explicit pattern and mines the implicit
intent (category `humidity`, target `humidifier`, confidence 0.7); and for
any manager state in which the user owns exactly one device, an online
humidifier, the decision is `proactive_suggestion` with exactly one pending
action, requiring confirmation, targeting that device. -/
theorem implicit_humidity_suggestion
    (m : DeviceManager) (uid : String) (dd : DeviceDict)
    (hud : get_user_devices m uid = [dd])
    (htype : dd.device_type = "humidifier")
    (hstatus : dd.status = "online") :
    understand_intent "好干燥啊".toList = intentC4 ∧
    ∃ env dec,
      get_environment_data (match_devices m intentC4 uid) = some env ∧
      make_decision intentC4 (match_devices m intentC4 uid) env = some dec ∧
      dec.strategy = .proactive_suggestion ∧
      dec.pending_actions.map (fun a => (a.device_id, a.requires_confirmation)) =
        [(some dd.device_id, true)] := by
  refine ⟨by decide, ?_⟩
  have hmd : match_devices m intentC4 uid = [mk_device_match dd intentC4] := by
    have hdm : device_matches_intent dd intentC4 = true := by
      simp [device_matches_intent, intentC4, htype]
    have hdef : match_devices m intentC4 uid =
        sort_desc (((get_user_devices m uid).filter
          (fun d => device_matches_intent d intentC4)).map
          (fun d => mk_device_match d intentC4)) := rfl
    rw [hdef, hud, List.filter_cons, hdm]
    simp [sort_desc, insert_desc]
  rw [hmd]
  have hcs : (mk_device_match dd intentC4).current_state = "online" := by
    simp [mk_device_match, hstatus]
  have henv : get_environment_data [mk_device_match dd intentC4] = some {} := by
    unfold get_environment_data
    rw [List.any_cons, List.any_nil, Bool.or_false, hcs]
    rw [if_neg (by decide)]
  refine ⟨{}, _, henv, rfl, rfl, ?_⟩
  simp [create_suggestion_decision, mk_device_match]

/-- C4 witness: the claim's theorem applied to `mgrC4`, where user `u1`
owns exactly the online humidifier `devHum`. -/
theorem implicit_humidity_suggestion_witness :
    understand_intent "好干燥啊".toList = intentC4 ∧
    ∃ env dec,
      get_environment_data (match_devices mgrC4 intentC4 "u1") = some env ∧
      make_decision intentC4 (match_devices mgrC4 intentC4 "u1") env = some dec ∧
      dec.strategy = .proactive_suggestion ∧
      dec.pending_actions.map (fun a => (a.device_id, a.requires_confirmation)) =
        [(some (device_to_dict devHum).device_id, true)] :=
  implicit_humidity_suggestion mgrC4 "u1" (device_to_dict devHum) rfl rfl rfl

/-! ## Claim C5 -/

/-- C5 counterexample: registering a capability declaration of kind `enum`
with an empty value set does not fail — `register_device` returns the new
device and its id is in the registry — refuting the claim that such a
malformed declaration is rejected with `InvalidCapability` and the device
not added. -/
theorem register_empty_enum_accepted_cex :
    (register_device {} infoEnumEmpty "u1" "f1" "t0").isSome = true ∧
    ((register_device {} infoEnumEmpty "u1" "f1" "t0").map
      (fun r => hasKeyA r.2.devices "fan-1")) = some true := by
  exact ⟨rfl, rfl⟩

/-- Any capability list whose type strings all name known kinds parses. -/
theorem parse_capabilities_total (l : List (String × CapInfo))
    (h : ∀ c ∈ l, (CapabilityType.ofString (c.2.type.getD "switch")).isSome = true) :
    ∃ caps, parse_capabilities l = some caps := by
  unfold parse_capabilities
  induction l with
  | nil => exact ⟨[], rfl⟩
  | cons a t ih =>
    obtain ⟨ca, hca⟩ : ∃ ca, parse_capability a = some ca := by
      unfold parse_capability
      obtain ⟨ty, hty⟩ := Option.isSome_iff_exists.mp (h a (by simp))
      rw [hty]
      exact ⟨_, rfl⟩
    obtain ⟨cs, hcs⟩ := ih (fun c hc => h c (by simp [hc]))
    rw [List.mapM_cons, hca, hcs]
    exact ⟨ca :: cs, rfl⟩

/-- C5 amended: registration validates only that each capability's `type`
string names a known kind; kind-specific parameters (an enum's value set, a
range's min/max) are never checked, so any such declaration — including an
enum with an empty value set or a range with min > max — is accepted and
the device is added to the registry. -/
theorem register_accepts_any_kind_params
    (m : DeviceManager) (info : DeviceInfo) (uid fid now : String)
    (h : ∀ c ∈ info.capabilities,
      (CapabilityType.ofString (c.2.type.getD "switch")).isSome = true) :
    ∃ d m', register_device m info uid fid now = some (d, m') ∧
      lookupA m'.devices (chosen_device_id info fid) = some d := by
  obtain ⟨caps, hcaps⟩ := parse_capabilities_total info.capabilities h
  unfold register_device
  rw [hcaps]
  simp only [Option.map_some']
  exact ⟨_, _, rfl, lookupA_setA_self _ _ _⟩

/-- C5 amended witness: the amended theorem applied to the empty-enum
declaration (and hence showing it is accepted). -/
theorem register_accepts_any_kind_params_witness :
    ∃ d m', register_device {} infoEnumEmpty "u1" "f1" "t0" = some (d, m') ∧
      lookupA m'.devices (chosen_device_id infoEnumEmpty "f1") = some d :=
  register_accepts_any_kind_params {} infoEnumEmpty "u1" "f1" "t0" (by decide)

/-! ## Claim C6 -/

/-- C6 counterexample: a high-confidence human-device scene with the urgent
flag set yields `respond`, not `emergency_alert` — the human-device branch
of `_determine_action` returns before the urgency check is reached —
refuting the claim that the urgent flag forces `emergency_alert` for every
scene type. -/
theorem urgent_human_device_not_alert_cex :
    determine_action ⟨some .human_device, mkRat 9 10, true⟩ {} = .respond ∧
    (RecommendedAction.respond ≠ RecommendedAction.emergency_alert) := by decide

/-- C6 amended: the urgent flag forces `emergency_alert` only when the
classified scene type is not human-device (for human-device scenes the
human-device rules apply first and win). -/
theorem urgent_non_human_device_alert
    (sr : SceneRuleResult) (f : SceneFeatures)
    (hu : sr.is_urgent = true)
    (ht : sr.type ≠ some SceneType.human_device) :
    determine_action sr f = .emergency_alert := by
  unfold determine_action
  rw [if_neg ht, hu]
  simp

/-- C6 amended witness: the amended theorem applied to an urgent
human-human scene. -/
theorem urgent_non_human_device_alert_witness :
    determine_action ⟨some .human_human, mkRat 9 10, true⟩ {} = .emergency_alert :=
  urgent_non_human_device_alert ⟨some .human_human, mkRat 9 10, true⟩ {} rfl (by decide)

/-! ## Claim C7 -/

/-- Trimming to the last 10 bounds the history length by 10. -/
theorem ctx_append_length_le (h : List CtxEntry) (e : CtxEntry) :
    (ctx_append h e).length ≤ 10 := by
  unfold ctx_append
  simp only [List.length_drop]
  omega

/-- One `context_update` preserves the per-user bound on every history. -/
theorem context_update_inv (cm : ContextMap) (uid : String) (i : Intent)
    (d : Option Decision) (hinv : ∀ p ∈ cm, p.2.length ≤ 10) :
    ∀ p ∈ context_update cm uid i d, p.2.length ≤ 10 := by
  intro p hp
  unfold context_update at hp
  obtain ⟨q, hq, hpq⟩ := List.mem_map.mp hp
  have hq10 : q.2.length ≤ 10 := by
    by_cases hk : hasKeyA cm uid = true
    · rw [if_pos hk] at hq
      exact hinv q hq
    · rw [if_neg hk] at hq
      rcases List.mem_append.mp hq with hq' | hq'
      · exact hinv q hq'
      · simp at hq'
        simp [hq']
  by_cases he : (q.1 == uid) = true
  · rw [if_pos he] at hpq
    rw [← hpq]
    exact ctx_append_length_le q.2 _
  · rw [if_neg he] at hpq
    rw [← hpq]
    exact hq10

/-- C7: for every user and every sequence of context updates (starting from
the empty context store), the user's history never holds more than 10
entries; and an update against a full (length-10) history drops exactly the
oldest entry before appending the new one. -/
theorem context_history_bounded :
    (∀ (updates : List (String × Intent × Option Decision)) (uid : String),
      (ctx_get (updates.foldl
        (fun cm u => context_update cm u.1 u.2.1 u.2.2) []) uid).length ≤ 10) ∧
    (∀ (h : List CtxEntry) (e : CtxEntry), h.length = 10 →
      ctx_append h e = h.drop 1 ++ [e]) := by
  constructor
  · intro updates uid
    have hfold : ∀ (cm : ContextMap), (∀ p ∈ cm, p.2.length ≤ 10) →
        ∀ p ∈ updates.foldl (fun cm u => context_update cm u.1 u.2.1 u.2.2) cm,
          p.2.length ≤ 10 := by
      induction updates with
      | nil => intro cm h; simpa using h
      | cons u t ih =>
        intro cm h
        exact ih _ (context_update_inv cm u.1 u.2.1 u.2.2 h)
    have hall := hfold [] (by simp)
    unfold ctx_get lookupA
    cases hf : (updates.foldl (fun cm u => context_update cm u.1 u.2.1 u.2.2)
        []).find? (fun p => p.1 == uid) with
    | none => simp
    | some p =>
      simp only [Option.map_some', Option.getD_some]
      exact hall p (List.mem_of_find?_eq_some hf)
  · intro h e hlen
    cases h with
    | nil => simp at hlen
    | cons a t =>
      show List.drop ((a :: t ++ [e]).length - 10) (a :: t ++ [e]) =
        List.drop 1 (a :: t) ++ [e]
      have h11 : (a :: t ++ [e]).length - 10 = 1 := by
        simp only [List.length_cons] at hlen
        simp only [List.length_cons, List.length_append, List.length_nil]
        omega
      rw [h11]
      simp

/-- C7 witness: the bound applied after one update for `u1`, and the
eviction shape applied to a concrete full history. -/
theorem context_history_bounded_witness :
    (ctx_get ([("u1", unknown_intent, (none : Option Decision))].foldl
      (fun cm u => context_update cm u.1 u.2.1 u.2.2) []) "u1").length ≤ 10 ∧
    ctx_append h10 entry0 = h10.drop 1 ++ [entry0] :=
  ⟨context_history_bounded.1 [("u1", unknown_intent, none)] "u1",
   context_history_bounded.2 h10 entry0 (by decide)⟩

/-! ## Claim C8 -/

/-- C8 counterexample: `mgrC8` has two registered listeners, the first of
which raises; on a status update the merge is applied but only one listener
is entered and the exception propagates out of `update_device_status` —
refuting the claim that the update still succeeds and every other listener
is still invoked. -/
theorem listener_failure_not_isolated_cex :
    mgrC8.status_listeners.length = 2 ∧
    (update_device_status mgrC8 "lt-1" sdC8 "t1").2 = (1, some "boom") ∧
    ((lookupA (update_device_status mgrC8 "lt-1" sdC8 "t1").1.devices "lt-1").map
      (fun d => d.current_state)) = some [("power", 1)] :=
  ⟨rfl, rfl, rfl⟩

/-- C8 amended: the state merge is applied to the registry before any
listener runs, so a failing listener cannot corrupt or roll back device
state; but listener exceptions are not caught — the first raising listener
ends the notification loop (exactly the listeners up to and including it
are entered, later ones are skipped) and the exception propagates out of
`update_device_status`. -/
theorem status_merge_applied_listener_abort :
    (∀ (m : DeviceManager) (did : String) (d : Device) (sd : StatusData) (now : String),
      lookupA m.devices did = some d →
      lookupA (update_device_status m did sd now).1.devices did =
        some (apply_status d sd now)) ∧
    (∀ (pre : List ListenerFn) (l : ListenerFn) (post : List ListenerFn)
       (did : String) (st : List (String × Int)) (e : String),
      (∀ l' ∈ pre, l' did st = .ok ()) → l did st = .error e →
      run_listeners (pre ++ l :: post) did st = (pre.length + 1, some e)) := by
  constructor
  · intro m did d sd now hdev
    unfold update_device_status
    rw [hdev]
    exact lookupA_setA_self _ _ _
  · intro pre l post did st e hok hfail
    induction pre with
    | nil =>
      simp only [List.nil_append, run_listeners, hfail, List.length_nil, Nat.zero_add]
    | cons a t ih =>
      have ha : a did st = .ok () := hok a (by simp)
      have ht := ih (fun l' hl' => hok l' (by simp [hl']))
      simp only [List.cons_append, run_listeners, ha, List.length_cons, List.append_eq, ht]

/-- C8 amended witness: the merge conjunct applied to `mgrC8`, and the
abort conjunct applied to listeners `[ok, fail, ok]`, showing exactly two
of the three are entered and the error propagates. -/
theorem status_merge_applied_listener_abort_witness :
    lookupA (update_device_status mgrC8 "lt-1" sdC8 "t1").1.devices "lt-1" =
      some (apply_status devLight sdC8 "t1") ∧
    run_listeners ([okListener] ++ failListener :: [okListener]) "d" [] =
      (2, some "boom") :=
  ⟨status_merge_applied_listener_abort.1 mgrC8 "lt-1" devLight sdC8 "t1" rfl,
   status_merge_applied_listener_abort.2 [okListener] failListener [okListener] "d" [] "boom"
     (by intro l' hl'; rw [List.mem_singleton.mp hl']; rfl) rfl⟩

/-! ## Claim C9 -/

/-- Inserting an element whose score is at least the head's puts it in
front, preserving original order among equal scores. -/
theorem insert_desc_of_ge (x y : DeviceMatch) (t : List DeviceMatch)
    (h : y.match_score ≤ x.match_score) :
    insert_desc x (y :: t) = x :: y :: t := by
  unfold insert_desc
  rw [if_pos h]

/-- Sorting a list of matches whose scores are all equal is the identity:
stability keeps the original (registration) order. -/
theorem sort_desc_eq_self_of_const (l : List DeviceMatch) (c : ℚ)
    (h : ∀ x ∈ l, x.match_score = c) : sort_desc l = l := by
  induction l with
  | nil => rfl
  | cons x t ih =>
    have hx : sort_desc (x :: t) = insert_desc x (sort_desc t) := rfl
    rw [hx, ih (fun y hy => h y (by simp [hy]))]
    cases t with
    | nil => rfl
    | cons y t' =>
      exact insert_desc_of_ge x y t'
        (by rw [h x (by simp), h y (by simp)])

/-- Equal scores give a trivially descending (pairwise ≥) list. -/
theorem pairwise_const_scores (l : List DeviceMatch) (c : ℚ)
    (h : ∀ x ∈ l, x.match_score = c) :
    l.Pairwise (fun a b => b.match_score ≤ a.match_score) := by
  induction l with
  | nil => exact List.Pairwise.nil
  | cons x t ih =>
    refine List.Pairwise.cons ?_ (ih (fun y hy => h y (by simp [hy])))
    intro y hy
    rw [h x (by simp), h y (by simp [hy])]

/-- C9: device matching is empty when the intent's target is unset;
otherwise it returns exactly the owner's devices whose `device_type` equals
the target, in registration order (the source's constant scorer gives all
candidates score 0.9, and the stable descending sort then preserves list
order), and the result is sorted descending by score — a deterministic
ranking with the first-registered device first among ties. -/
theorem match_devices_deterministic :
    (∀ (m : DeviceManager) (intent : Intent) (uid : String),
      intent.target = none → match_devices m intent uid = []) ∧
    (∀ (m : DeviceManager) (intent : Intent) (uid : String) (t : String),
      intent.target = some t → t ≠ "" →
      match_devices m intent uid =
        ((get_user_devices m uid).filter (fun d => d.device_type == t)).map
          (fun d => mk_device_match d intent) ∧
      (match_devices m intent uid).Pairwise
        (fun a b => b.match_score ≤ a.match_score)) := by
  constructor
  · intro m intent uid ht
    unfold match_devices
    rw [ht]
  · intro m intent uid t ht hne
    have hfe : (fun d => device_matches_intent d intent) =
        (fun d : DeviceDict => d.device_type == t) := by
      funext d
      unfold device_matches_intent
      rw [ht]
    have hscore : ∀ x ∈ ((get_user_devices m uid).filter
        (fun d : DeviceDict => d.device_type == t)).map
        (fun d => mk_device_match d intent), x.match_score = mkRat 9 10 := by
      intro x hx
      obtain ⟨d, _, hdx⟩ := List.mem_map.mp hx
      rw [← hdx]
      rfl
    have hdef : match_devices m intent uid =
        sort_desc (((get_user_devices m uid).filter
          (fun d => device_matches_intent d intent)).map
          (fun d => mk_device_match d intent)) := by
      simp only [match_devices, ht]
      rw [if_neg (by simpa using hne)]
    rw [hdef, hfe]
    rw [sort_desc_eq_self_of_const _ (mkRat 9 10) hscore]
    exact ⟨rfl, pairwise_const_scores _ (mkRat 9 10) hscore⟩

/-- C9 witness: the ranking conjunct applied to `mgrC9`, where `u1` owns
two ACs with equal (constant) scores: the result lists `ac-1` — registered
first — first. -/
theorem match_devices_deterministic_witness :
    match_devices mgrC9 intentC9 "u1" =
      ((get_user_devices mgrC9 "u1").filter (fun d => d.device_type == "ac")).map
        (fun d => mk_device_match d intentC9) ∧
    (match_devices mgrC9 intentC9 "u1").Pairwise
      (fun a b => b.match_score ≤ a.match_score) :=
  match_devices_deterministic.2 mgrC9 intentC9 "u1" "ac" rfl (by decide)

/-! ## Claim C10 -/

/-- C10: a second `register_device` call with a client-supplied id already
registered to the same user replaces the registry entry (same id, same
total device count, new device value) but appends the id to that user's
owner index again, so a subsequent `get_user_devices` returns the device
once per registration call — the filtered count grows by exactly one and is
at least two. -/
theorem duplicate_register_appends_owner_index
    (m : DeviceManager) (info : DeviceInfo) (uid fid now did : String)
    (caps : List Capability)
    (hdid : info.device_id = some did) (hne : did ≠ "")
    (hparse : parse_capabilities info.capabilities = some caps)
    (hkey : hasKeyA m.devices did = true)
    (hmem : did ∈ (lookupA m.user_devices uid).getD [])
    (hcoh : ∀ p ∈ m.devices, p.2.device_id = p.1) :
    ∃ d m', register_device m info uid fid now = some (d, m') ∧
      d.device_id = did ∧
      lookupA m'.devices did = some d ∧
      m'.devices.length = m.devices.length ∧
      (lookupA m'.user_devices uid).getD [] =
        (lookupA m.user_devices uid).getD [] ++ [did] ∧
      ((get_user_devices m' uid).filter (fun dd => dd.device_id == did)).length =
        (((lookupA m.user_devices uid).getD []).filter (fun i => i == did)).length + 1 ∧
      2 ≤ ((get_user_devices m' uid).filter (fun dd => dd.device_id == did)).length := by
  obtain ⟨old, hold⟩ : ∃ old, lookupA m.user_devices uid = some old := by
    cases hl : lookupA m.user_devices uid with
    | none => rw [hl] at hmem; simp at hmem
    | some o => exact ⟨o, rfl⟩
  have hmem' : did ∈ old := by
    rw [hold] at hmem
    simpa using hmem
  have hkuid : hasKeyA m.user_devices uid = true := by
    unfold lookupA at hold
    cases hf : m.user_devices.find? (fun p => p.1 == uid) with
    | none => rw [hf] at hold; simp at hold
    | some p =>
      have hp : (p.1 == uid) = true := by simpa using List.find?_some hf
      unfold hasKeyA
      exact List.any_eq_true.mpr ⟨p, List.mem_of_find?_eq_some hf, hp⟩
  have hid : chosen_device_id info fid = did := by
    simp only [chosen_device_id, hdid]
    rw [if_neg (by simpa using hne)]
  have hreg : register_device m info uid fid now = some
      (device_of_info info caps uid did now,
       registered_manager m info caps uid did now) := by
    unfold register_device device_of_info registered_manager
    rw [hparse]
    simp only [Option.map_some', hid]
    rw [if_pos hkuid]
    rfl
  have hudsM : lookupA (registered_manager m info caps uid did now).user_devices uid =
      some (old ++ [did]) := by
    show lookupA (m.user_devices.map
      (fun p => if p.1 == uid then (p.1, p.2 ++ [did]) else p)) uid = some (old ++ [did])
    rw [lookupA_owner_append, hold]
    rfl
  have hgud : get_user_devices (registered_manager m info caps uid did now) uid =
      (old ++ [did]).filterMap (fun i =>
        (lookupA (registered_manager m info caps uid did now).devices i).map
          device_to_dict) := by
    unfold get_user_devices
    rw [hudsM]
    rfl
  have hq : ∀ i ∈ old ++ [did],
      ((((lookupA (registered_manager m info caps uid did now).devices i).map
        device_to_dict).map (fun dd => dd.device_id == did)).getD false) = (i == did) := by
    intro i _
    show ((((lookupA (setA m.devices did (device_of_info info caps uid did now)) i).map
      device_to_dict).map (fun dd => dd.device_id == did)).getD false) = (i == did)
    by_cases hi : i = did
    · subst hi
      rw [lookupA_setA_self]
      simp [device_to_dict, device_of_info]
    · rw [lookupA_setA_ne m.devices did i (device_of_info info caps uid did now) hi]
      cases hl2 : lookupA m.devices i with
      | none =>
        simp only [hl2, Option.map_none', Option.getD_none]
        have : (i == did) = false := beq_eq_false_iff_ne.mpr hi
        rw [this]
      | some dv =>
        have hdv : dv.device_id = i := by
          unfold lookupA at hl2
          cases hf2 : m.devices.find? (fun p => p.1 == i) with
          | none => rw [hf2] at hl2; simp at hl2
          | some p =>
            rw [hf2] at hl2
            simp only [Option.map_some', Option.some.injEq] at hl2
            have hp1 : p.1 = i := by simpa using List.find?_some hf2
            have hco := hcoh p (List.mem_of_find?_eq_some hf2)
            rw [← hl2, hco, hp1]
        simp only [hl2, Option.map_some', Option.getD_some, device_to_dict]
        rw [hdv]
  have hcnt : ((get_user_devices (registered_manager m info caps uid did now) uid).filter
        (fun dd => dd.device_id == did)).length =
      (old.filter (fun i => i == did)).length + 1 := by
    rw [hgud, filter_filterMap_length, List.filter_congr hq, List.filter_append]
    simp
  have hpos : 0 < (old.filter (fun i => i == did)).length :=
    List.length_pos_of_mem (List.mem_filter.mpr ⟨hmem', by simp⟩)
  refine ⟨device_of_info info caps uid did now, registered_manager m info caps uid did now,
    hreg, rfl, lookupA_setA_self _ _ _, ?_, ?_, ?_, ?_⟩
  · show (setA m.devices did (device_of_info info caps uid did now)).length =
      m.devices.length
    unfold setA
    rw [if_pos hkey]
    exact List.length_map _ _
  · rw [hudsM, hold]
    rfl
  · rw [hold]
    simpa using hcnt
  · rw [hcnt]
    omega

/-- C10 witness: the claim's theorem applied to `mgrC10`, the state after a
first registration of `infoC10` by `u1`: a second registration of the same
`d1` duplicates the owner-index entry and `get_user_devices` lists the
device twice. -/
theorem duplicate_register_appends_owner_index_witness :
    ∃ d m', register_device mgrC10 infoC10 "u1" "f2" "t2" = some (d, m') ∧
      d.device_id = "d1" ∧
      lookupA m'.devices "d1" = some d ∧
      m'.devices.length = mgrC10.devices.length ∧
      (lookupA m'.user_devices "u1").getD [] =
        (lookupA mgrC10.user_devices "u1").getD [] ++ ["d1"] ∧
      ((get_user_devices m' "u1").filter (fun dd => dd.device_id == "d1")).length =
        (((lookupA mgrC10.user_devices "u1").getD []).filter
          (fun i => i == "d1")).length + 1 ∧
      2 ≤ ((get_user_devices m' "u1").filter (fun dd => dd.device_id == "d1")).length :=
  duplicate_register_appends_owner_index mgrC10 infoC10 "u1" "f2" "t2" "d1" []
    rfl (by decide) rfl rfl (by decide) (by decide)

end SDP
